import Mathlib

/-!
Shallow embedding of the GOD_Member balance-ledger service (src/main.py).

The service keeps customer documents in a Firestore collection and a shared
counter document, and mutates them through transactional read-modify-write
bodies.  We embed the store as an explicit state value: an association list
from document id to customer document, together with the optional counter
document.  Monetary values (Python floats manipulated only by addition,
subtraction and comparison) are embedded as rationals.  Each transactional
body of src/main.py becomes a pure function from the snapshot state to a
result together with the committed state; a raised HTTPException aborts the
transaction, so the error branches return the input state unchanged.
-/

/-- Customer document, mirroring the field set written by
`create_customer_transaction` in src/main.py (lines 119-125) and consumed by
the top-up and spend bodies. -/
structure CustomerDoc where
  name : String
  customer_id : String
  total_top_up : ℚ
  total_spent : ℚ
  balance : ℚ
deriving Repr, DecidableEq

/-- The customers collection: document id to document. -/
abbrev CustomerMap := List (String × CustomerDoc)

/-- Read the document stored at key `k` (Firestore `doc_ref.get`). -/
def lookupDoc (m : CustomerMap) (k : String) : Option CustomerDoc :=
  match m with
  | [] => none
  | (k', v) :: rest => if k' = k then some v else lookupDoc rest k

/-- Create-or-replace the document at key `k` (Firestore `transaction.set`,
and `transaction.update` once the existence of the target is known). -/
def setDoc (m : CustomerMap) (k : String) (v : CustomerDoc) : CustomerMap :=
  match m with
  | [] => [(k, v)]
  | (k', v') :: rest => if k' = k then (k, v) :: rest else (k', v') :: setDoc rest k v

/-- The whole document store: the `customers` collection plus the single
`counters/customer_id_counter` document (`none` when that document is
absent, `some v` when it holds `current_value = v`). -/
structure Store where
  customers : CustomerMap
  counter : Option ℕ
deriving Repr, DecidableEq

def lookupCustomer (s : Store) (id : String) : Option CustomerDoc :=
  lookupDoc s.customers id

def setCustomer (s : Store) (id : String) (d : CustomerDoc) : Store :=
  { s with customers := setDoc s.customers id d }

/-- The counter value the allocator reads: `0` when the counter document is
absent, `current_value` otherwise (src/main.py lines 78-83). -/
def counterVal (s : Store) : ℕ :=
  match s.counter with
  | none => 0
  | some v => v

/-- Outcomes surfaced to the HTTP layer by the handlers of src/main.py:
`notFound` (404), `alreadyExists` (409), `insufficientBalance` (400), and
`validationError` (422, produced by pydantic before a handler runs). -/
inductive ApiError where
  | notFound
  | alreadyExists
  | insufficientBalance
  | validationError
deriving Repr, DecidableEq

/-- Zero-padding of the Python format `f"GOD-\x7bnew_counter_value:04d\x7d"`:
the decimal numeral, left-padded with zeros to width 4 when shorter. -/
def padZeros4 (n : ℕ) : String :=
  let s := Nat.repr n
  if s.length < 4 then String.mk (List.replicate (4 - s.length) '0') ++ s else s

/-- The identifier string for counter value `n` (src/main.py line 89). -/
def formatCustomerId (n : ℕ) : String :=
  "GOD-" ++ padZeros4 n

/-- `_generate_sequential_customer_id` (src/main.py lines 74-90): read the
counter document in the transaction (absent means current value 0, and a
creation with value 0 is scheduled, immediately overwritten by the update),
increment by one, schedule the counter update, and return the formatted
identifier. -/
def _generate_sequential_customer_id (s : Store) : String × Store :=
  let current_counter_value := counterVal s
  let new_counter_value := current_counter_value + 1
  (formatCustomerId new_counter_value, { s with counter := some new_counter_value })

/-- Python truthiness of the optional `customer_id` field of the request
body: `if doc_id_to_use:` is false for `None` and for the empty string. -/
def truthy : Option String → Bool
  | none => false
  | some s => !s.isEmpty

/-- `create_customer_transaction` (src/main.py lines 99-130): with a truthy
requested id, read the document at that id and fail with 409 when it exists;
otherwise mint an identifier with the allocator.  Then write the new customer
document at the final id and return it as written. -/
def create_customer_transaction (s : Store) (name : String) (requested_id : Option String) :
    Except ApiError CustomerDoc × Store :=
  if truthy requested_id then
    let doc_id_to_use := requested_id.getD ""
    match lookupCustomer s doc_id_to_use with
    | some _ => (Except.error ApiError.alreadyExists, s)
    | none =>
        let new_customer : CustomerDoc :=
          { name := name, customer_id := doc_id_to_use
            total_top_up := 0, total_spent := 0, balance := 0 }
        (Except.ok new_customer, setCustomer s doc_id_to_use new_customer)
  else
    let (final_assigned_id, s') := _generate_sequential_customer_id s
    let new_customer : CustomerDoc :=
      { name := name, customer_id := final_assigned_id
        total_top_up := 0, total_spent := 0, balance := 0 }
    (Except.ok new_customer, setCustomer s' final_assigned_id new_customer)

/-- The transactional body of `top_up_customer_balance` (src/main.py lines
181-211): read the snapshot, 404 when absent, otherwise add the amount to
`total_top_up` and `balance`, update exactly those two fields, and return
the snapshot record with those two fields replaced (no re-read). -/
def topUpInTransaction (s : Store) (customer_id : String) (amount : ℚ) :
    Except ApiError CustomerDoc × Store :=
  match lookupCustomer s customer_id with
  | none => (Except.error ApiError.notFound, s)
  | some snapshot =>
      let new_total_top_up := snapshot.total_top_up + amount
      let new_balance := snapshot.balance + amount
      let updated := { snapshot with total_top_up := new_total_top_up, balance := new_balance }
      (Except.ok updated, setCustomer s customer_id updated)

/-- The transactional body of `spend_customer_balance` (src/main.py lines
230-258): read the snapshot, 404 when absent, reject with 400 when
`balance < amount` (aborting before any write), otherwise add the amount to
`total_spent`, subtract it from `balance`, update exactly those two fields,
and return the snapshot record with those two fields replaced. -/
def spendInTransaction (s : Store) (customer_id : String) (amount : ℚ) :
    Except ApiError CustomerDoc × Store :=
  match lookupCustomer s customer_id with
  | none => (Except.error ApiError.notFound, s)
  | some snapshot =>
      if snapshot.balance < amount then
        (Except.error ApiError.insufficientBalance, s)
      else
        let new_total_spent := snapshot.total_spent + amount
        let new_balance := snapshot.balance - amount
        let updated := { snapshot with total_spent := new_total_spent, balance := new_balance }
        (Except.ok updated, setCustomer s customer_id updated)

/-- The `PUT /customers/id/topup` endpoint: pydantic validates
`amount > 0` (`TransactionAmount`, src/main.py line 72) before the handler
runs, so a non-positive amount is rejected before any transaction or store
round trip; otherwise the transactional body runs. -/
def top_up_customer_balance (s : Store) (customer_id : String) (amount : ℚ) :
    Except ApiError CustomerDoc × Store :=
  if 0 < amount then topUpInTransaction s customer_id amount
  else (Except.error ApiError.validationError, s)

/-- The `PUT /customers/id/spend` endpoint: same `amount > 0` validation
before the transactional body runs. -/
def spend_customer_balance (s : Store) (customer_id : String) (amount : ℚ) :
    Except ApiError CustomerDoc × Store :=
  if 0 < amount then spendInTransaction s customer_id amount
  else (Except.error ApiError.validationError, s)

/-- The `POST /customers/` endpoint simply runs the create transaction. -/
def create_customer (s : Store) (name : String) (requested_id : Option String) :
    Except ApiError CustomerDoc × Store :=
  create_customer_transaction s name requested_id

/-- The ledger invariant on one customer record (spec section 3). -/
def LedgerInv (c : CustomerDoc) : Prop :=
  c.balance = c.total_top_up - c.total_spent ∧ 0 ≤ c.balance

instance (c : CustomerDoc) : Decidable (LedgerInv c) := by
  unfold LedgerInv; infer_instance

/-- The ledger invariant on every record in the store. -/
def StoreInv (s : Store) : Prop :=
  ∀ p ∈ s.customers, LedgerInv p.2

instance (s : Store) : Decidable (StoreInv s) := by
  unfold StoreInv; infer_instance

/-- State after `n` successive allocator calls. -/
def iterAlloc (s : Store) : ℕ → Store
  | 0 => s
  | n + 1 => (_generate_sequential_customer_id (iterAlloc s n)).2

/-- The number minted by the `(k+1)`-st allocator call starting from `s`. -/
def allocValue (s : Store) (k : ℕ) : ℕ :=
  counterVal (iterAlloc s k) + 1

/-! ### Lemmas about the document map -/

theorem lookupDoc_cons (k0 : String) (v0 : CustomerDoc) (rest : CustomerMap) (k : String) :
    lookupDoc ((k0, v0) :: rest) k = if k0 = k then some v0 else lookupDoc rest k := rfl

theorem setDoc_cons (k0 : String) (v0 : CustomerDoc) (rest : CustomerMap) (k : String)
    (v : CustomerDoc) :
    setDoc ((k0, v0) :: rest) k v =
      if k0 = k then (k, v) :: rest else (k0, v0) :: setDoc rest k v := rfl

theorem lookupDoc_setDoc_self (m : CustomerMap) (k : String) (v : CustomerDoc) :
    lookupDoc (setDoc m k v) k = some v := by
  induction m with
  | nil => simp [setDoc, lookupDoc]
  | cons p rest ih =>
      obtain ⟨k0, v0⟩ := p
      rw [setDoc_cons]
      by_cases h : k0 = k
      · rw [if_pos h, lookupDoc_cons, if_pos rfl]
      · rw [if_neg h, lookupDoc_cons, if_neg h, ih]

theorem lookupDoc_setDoc_ne (m : CustomerMap) (k k' : String) (v : CustomerDoc)
    (h : k' ≠ k) : lookupDoc (setDoc m k v) k' = lookupDoc m k' := by
  induction m with
  | nil => simp [setDoc, lookupDoc, if_neg (Ne.symm h)]
  | cons p rest ih =>
      obtain ⟨k0, v0⟩ := p
      rw [setDoc_cons]
      by_cases h0 : k0 = k
      · subst h0
        rw [if_pos rfl, lookupDoc_cons, if_neg (Ne.symm h), lookupDoc_cons,
          if_neg (Ne.symm h)]
      · rw [if_neg h0, lookupDoc_cons, lookupDoc_cons, ih]

theorem mem_setDoc (m : CustomerMap) (k : String) (v : CustomerDoc) :
    ∀ p ∈ setDoc m k v, p ∈ m ∨ p = (k, v) := by
  induction m with
  | nil => simp [setDoc]
  | cons q rest ih =>
      obtain ⟨k0, v0⟩ := q
      intro p hp
      rw [setDoc_cons] at hp
      by_cases h0 : k0 = k
      · rw [if_pos h0, List.mem_cons] at hp
        rcases hp with hp | hp
        · right; exact hp
        · left; exact List.mem_cons_of_mem _ hp
      · rw [if_neg h0, List.mem_cons] at hp
        rcases hp with hp | hp
        · left; exact hp ▸ List.mem_cons_self _ _
        · rcases ih p hp with h | h
          · left; exact List.mem_cons_of_mem _ h
          · right; exact h

theorem lookupDoc_mem (m : CustomerMap) (k : String) (v : CustomerDoc)
    (h : lookupDoc m k = some v) : (k, v) ∈ m := by
  induction m with
  | nil => simp [lookupDoc] at h
  | cons p rest ih =>
      obtain ⟨k0, v0⟩ := p
      rw [lookupDoc_cons] at h
      by_cases h0 : k0 = k
      · rw [if_pos h0] at h
        subst h0
        rw [Option.some.injEq] at h
        subst h
        exact List.mem_cons_self _ _
      · rw [if_neg h0] at h
        exact List.mem_cons_of_mem _ (ih h)

/-! ### Lemmas about the ledger invariant -/

theorem storeInv_lookup (s : Store) (k : String) (c : CustomerDoc)
    (hs : StoreInv s) (hc : lookupCustomer s k = some c) : LedgerInv c :=
  hs (k, c) (lookupDoc_mem _ _ _ hc)

theorem storeInv_setCustomer (s : Store) (k : String) (d : CustomerDoc)
    (hs : StoreInv s) (hd : LedgerInv d) : StoreInv (setCustomer s k d) := by
  intro p hp
  rcases mem_setDoc s.customers k d p hp with h | h
  · exact hs p h
  · rw [h]
    exact hd

/-- The freshly created customer record written by `create_customer_transaction`. -/
def newCustomerDoc (nm id : String) : CustomerDoc :=
  { name := nm, customer_id := id, total_top_up := 0, total_spent := 0, balance := 0 }

theorem ledgerInv_new_customer (nm id : String) : LedgerInv (newCustomerDoc nm id) := by
  refine ⟨?_, ?_⟩ <;> norm_num [newCustomerDoc]

/-! ### Characterizations of the three transactional operations -/

theorem truthy_some_iff (d : String) : truthy (some d) = true ↔ d ≠ "" := by
  simp [truthy, Bool.eq_false_iff, ne_eq, String.isEmpty_iff]

theorem topUp_notFound (s : Store) (cid : String) (a : ℚ)
    (ha : 0 < a) (hc : lookupCustomer s cid = none) :
    top_up_customer_balance s cid a = (Except.error ApiError.notFound, s) := by
  unfold top_up_customer_balance topUpInTransaction
  rw [if_pos ha, hc]

theorem topUp_ok (s : Store) (cid : String) (a : ℚ) (c : CustomerDoc)
    (ha : 0 < a) (hc : lookupCustomer s cid = some c) :
    top_up_customer_balance s cid a =
      (Except.ok { c with total_top_up := c.total_top_up + a, balance := c.balance + a },
        setCustomer s cid { c with total_top_up := c.total_top_up + a, balance := c.balance + a }) := by
  unfold top_up_customer_balance topUpInTransaction
  rw [if_pos ha, hc]

theorem spend_notFound (s : Store) (cid : String) (a : ℚ)
    (ha : 0 < a) (hc : lookupCustomer s cid = none) :
    spend_customer_balance s cid a = (Except.error ApiError.notFound, s) := by
  unfold spend_customer_balance spendInTransaction
  rw [if_pos ha, hc]

theorem spend_insufficient (s : Store) (cid : String) (a : ℚ) (c : CustomerDoc)
    (ha : 0 < a) (hc : lookupCustomer s cid = some c) (hb : c.balance < a) :
    spend_customer_balance s cid a = (Except.error ApiError.insufficientBalance, s) := by
  unfold spend_customer_balance spendInTransaction
  rw [if_pos ha, hc]
  simp [hb]

theorem spend_ok (s : Store) (cid : String) (a : ℚ) (c : CustomerDoc)
    (ha : 0 < a) (hc : lookupCustomer s cid = some c) (hb : ¬c.balance < a) :
    spend_customer_balance s cid a =
      (Except.ok { c with total_spent := c.total_spent + a, balance := c.balance - a },
        setCustomer s cid { c with total_spent := c.total_spent + a, balance := c.balance - a }) := by
  unfold spend_customer_balance spendInTransaction
  rw [if_pos ha, hc]
  simp [hb]

theorem create_requested_exists (s : Store) (nm docId : String) (c : CustomerDoc)
    (hne : docId ≠ "") (hc : lookupCustomer s docId = some c) :
    create_customer_transaction s nm (some docId) = (Except.error ApiError.alreadyExists, s) := by
  unfold create_customer_transaction
  rw [if_pos ((truthy_some_iff docId).2 hne)]
  simp only [Option.getD_some]
  rw [hc]

theorem create_requested_ok (s : Store) (nm docId : String)
    (hne : docId ≠ "") (hc : lookupCustomer s docId = none) :
    create_customer_transaction s nm (some docId) =
      (Except.ok (newCustomerDoc nm docId),
        setCustomer s docId (newCustomerDoc nm docId)) := by
  unfold create_customer_transaction
  rw [if_pos ((truthy_some_iff docId).2 hne)]
  simp only [Option.getD_some]
  rw [hc]
  rfl

theorem create_generated (s : Store) (nm : String) (rid : Option String)
    (htr : truthy rid = false) :
    create_customer_transaction s nm rid =
      (Except.ok (newCustomerDoc nm (formatCustomerId (counterVal s + 1))),
        setCustomer { s with counter := some (counterVal s + 1) }
          (formatCustomerId (counterVal s + 1))
          (newCustomerDoc nm (formatCustomerId (counterVal s + 1)))) := by
  unfold create_customer_transaction _generate_sequential_customer_id
  rw [htr]
  rfl

/-! ### C1: the ledger invariant -/

/-- Claim C1: every customer record produced or left in the store by Create,
TopUp or Spend satisfies `balance = total_top_up - total_spent` and
`balance ≥ 0`; each of the three operations preserves this invariant (the
amount validated positive, as the endpoints enforce before the bodies run). -/
theorem C1_operations_preserve_ledger_invariant
    (s : Store) (nm cid : String) (rid : Option String) (a : ℚ)
    (hs : StoreInv s) (ha : 0 < a) :
    (StoreInv (create_customer s nm rid).2 ∧
      ∀ d, (create_customer s nm rid).1 = Except.ok d → LedgerInv d) ∧
    (StoreInv (top_up_customer_balance s cid a).2 ∧
      ∀ d, (top_up_customer_balance s cid a).1 = Except.ok d → LedgerInv d) ∧
    (StoreInv (spend_customer_balance s cid a).2 ∧
      ∀ d, (spend_customer_balance s cid a).1 = Except.ok d → LedgerInv d) := by
  refine ⟨?_, ?_, ?_⟩
  · unfold create_customer
    cases htr : truthy rid with
    | false =>
        rw [create_generated s nm rid htr]
        refine ⟨storeInv_setCustomer _ _ _ hs (ledgerInv_new_customer _ _), ?_⟩
        intro d hd
        exact (Except.ok.inj hd) ▸ ledgerInv_new_customer _ _
    | true =>
        cases rid with
        | none => simp [truthy] at htr
        | some docId =>
            have hne : docId ≠ "" := (truthy_some_iff docId).1 htr
            cases hc : lookupCustomer s docId with
            | some c =>
                rw [create_requested_exists s nm docId c hne hc]
                exact ⟨hs, fun d hd => nomatch hd⟩
            | none =>
                rw [create_requested_ok s nm docId hne hc]
                refine ⟨storeInv_setCustomer _ _ _ hs (ledgerInv_new_customer _ _), ?_⟩
                intro d hd
                exact (Except.ok.inj hd) ▸ ledgerInv_new_customer _ _
  · cases hc : lookupCustomer s cid with
    | none =>
        rw [topUp_notFound s cid a ha hc]
        exact ⟨hs, fun d hd => nomatch hd⟩
    | some c =>
        obtain ⟨hb, hnn⟩ := storeInv_lookup s cid c hs hc
        have hinv :
            LedgerInv { c with total_top_up := c.total_top_up + a, balance := c.balance + a } := by
          refine ⟨?_, ?_⟩
          · show c.balance + a = c.total_top_up + a - c.total_spent
            rw [hb]; ring
          · show (0:ℚ) ≤ c.balance + a
            linarith
        rw [topUp_ok s cid a c ha hc]
        refine ⟨storeInv_setCustomer _ _ _ hs hinv, ?_⟩
        intro d hd
        exact (Except.ok.inj hd) ▸ hinv
  · cases hc : lookupCustomer s cid with
    | none =>
        rw [spend_notFound s cid a ha hc]
        exact ⟨hs, fun d hd => nomatch hd⟩
    | some c =>
        obtain ⟨hb, hnn⟩ := storeInv_lookup s cid c hs hc
        by_cases hlt : c.balance < a
        · rw [spend_insufficient s cid a c ha hc hlt]
          exact ⟨hs, fun d hd => nomatch hd⟩
        · have hinv :
              LedgerInv { c with total_spent := c.total_spent + a, balance := c.balance - a } := by
            refine ⟨?_, ?_⟩
            · show c.balance - a = c.total_top_up - (c.total_spent + a)
              rw [hb]; ring
            · show (0:ℚ) ≤ c.balance - a
              push_neg at hlt
              linarith
          rw [spend_ok s cid a c ha hc hlt]
          refine ⟨storeInv_setCustomer _ _ _ hs hinv, ?_⟩
          intro d hd
          exact (Except.ok.inj hd) ▸ hinv

/-- A concrete store with one invariant-satisfying customer, used to
instantiate the claim theorems. -/
def witStore : Store :=
  { customers := [("GOD-0001",
      { name := "Alice", customer_id := "GOD-0001",
        total_top_up := 100, total_spent := 40, balance := 60 })],
    counter := some 1 }

theorem witStore_inv : StoreInv witStore := by
  intro p hp
  simp only [witStore, List.mem_singleton] at hp
  subst hp
  exact ⟨by norm_num, by norm_num⟩

theorem C1_operations_preserve_ledger_invariant_witness :
    StoreInv (top_up_customer_balance witStore "GOD-0001" 5).2 ∧
    StoreInv (spend_customer_balance witStore "GOD-0001" 5).2 :=
  ⟨(C1_operations_preserve_ledger_invariant witStore "Bob" "GOD-0001" none 5
      witStore_inv (by norm_num)).2.1.1,
    (C1_operations_preserve_ledger_invariant witStore "Bob" "GOD-0001" none 5
      witStore_inv (by norm_num)).2.2.1⟩

/-! ### C2: Spend failure semantics -/

/-- Claim C2: for an existing customer and a positive amount, Spend fails
with InsufficientBalance iff the snapshot balance is strictly below the
amount; on that failure the store is unchanged; otherwise it adds the amount
to total_spent, subtracts it from balance, and returns the updated record. -/
theorem C2_spend_insufficient_balance_iff (s : Store) (cid : String) (a : ℚ)
    (c : CustomerDoc) (hc : lookupCustomer s cid = some c) (ha : 0 < a) :
    ((spend_customer_balance s cid a).1 = Except.error ApiError.insufficientBalance ↔
      c.balance < a) ∧
    (c.balance < a →
      spend_customer_balance s cid a = (Except.error ApiError.insufficientBalance, s)) ∧
    (¬c.balance < a →
      spend_customer_balance s cid a =
        (Except.ok { c with total_spent := c.total_spent + a, balance := c.balance - a },
          setCustomer s cid { c with total_spent := c.total_spent + a, balance := c.balance - a })) := by
  by_cases hlt : c.balance < a
  · rw [spend_insufficient s cid a c ha hc hlt]
    exact ⟨⟨fun _ => hlt, fun _ => rfl⟩, fun _ => rfl, fun h => absurd hlt h⟩
  · rw [spend_ok s cid a c ha hc hlt]
    exact ⟨⟨(fun h => nomatch h), fun h => absurd h hlt⟩, fun h => absurd h hlt, fun _ => rfl⟩

theorem C2_spend_insufficient_balance_iff_witness :
    spend_customer_balance witStore "GOD-0001" 1000 =
      (Except.error ApiError.insufficientBalance, witStore) :=
  (C2_spend_insufficient_balance_iff witStore "GOD-0001" 1000
      { name := "Alice", customer_id := "GOD-0001",
        total_top_up := 100, total_spent := 40, balance := 60 }
      rfl (by norm_num)).2.1 (by norm_num)

/-! ### C5: TopUp semantics -/

/-- Claim C5: for a positive amount, TopUp on an absent customer fails with
NotFound and leaves the store unchanged; on an existing customer it adds the
amount to total_top_up and balance, and the returned record is the snapshot
record with exactly those two fields replaced (no second read). -/
theorem C5_topup_semantics (s : Store) (cid : String) (a : ℚ) (ha : 0 < a) :
    (lookupCustomer s cid = none →
      top_up_customer_balance s cid a = (Except.error ApiError.notFound, s)) ∧
    (∀ c, lookupCustomer s cid = some c →
      top_up_customer_balance s cid a =
        (Except.ok { c with total_top_up := c.total_top_up + a, balance := c.balance + a },
          setCustomer s cid { c with total_top_up := c.total_top_up + a, balance := c.balance + a })) :=
  ⟨fun hc => topUp_notFound s cid a ha hc, fun c hc => topUp_ok s cid a c ha hc⟩

theorem C5_topup_semantics_witness :
    top_up_customer_balance witStore "missing" 7 = (Except.error ApiError.notFound, witStore) :=
  (C5_topup_semantics witStore "missing" 7 (by norm_num)).1 rfl

/-! ### C3: the allocator counter -/

theorem counterVal_iterAlloc (s : Store) (n : ℕ) :
    counterVal (iterAlloc s n) = counterVal s + n := by
  induction n with
  | zero => rfl
  | succ n ih =>
      show counterVal (_generate_sequential_customer_id (iterAlloc s n)).2 =
        counterVal s + (n + 1)
      unfold _generate_sequential_customer_id
      show counterVal (iterAlloc s n) + 1 = counterVal s + (n + 1)
      omega

/-- Claim C3: one allocation turns counter value `v` (0 when the counter
document is absent) into exactly `v + 1`, the minted number is `v + 1`, and
the numbers minted by successive allocations are strictly increasing, hence
never reused. -/
theorem C3_allocator_strictly_increasing (s : Store) (i j : ℕ) (hij : i < j) :
    (_generate_sequential_customer_id s).2.counter = some (counterVal s + 1) ∧
    (_generate_sequential_customer_id s).1 = formatCustomerId (counterVal s + 1) ∧
    allocValue s i = counterVal s + i + 1 ∧
    allocValue s i < allocValue s j := by
  have hv : ∀ k, allocValue s k = counterVal s + k + 1 := by
    intro k
    unfold allocValue
    rw [counterVal_iterAlloc]
  refine ⟨rfl, rfl, hv i, ?_⟩
  rw [hv i, hv j]
  omega

theorem C3_allocator_strictly_increasing_witness :
    allocValue witStore 0 < allocValue witStore 1 :=
  (C3_allocator_strictly_increasing witStore 0 1 (by decide)).2.2.2

/-! ### C4: identifier formatting -/

theorem toDigitsCore_length_lower :
    ∀ f n e : ℕ, n < 10 ^ f → 10 ^ e ≤ n →
      e < (Nat.toDigitsCore 10 f n []).length := by
  intro f
  induction f with
  | zero =>
      intro n e h1 h2
      have hpos : 0 < 10 ^ e := Nat.pow_pos (by norm_num)
      simp only [pow_zero] at h1
      omega
  | succ f ih =>
      intro n e h1 h2
      have hstep : Nat.toDigitsCore 10 (f + 1) n [] =
          if n / 10 = 0 then [Nat.digitChar (n % 10)]
          else Nat.toDigitsCore 10 f (n / 10) [Nat.digitChar (n % 10)] := rfl
      by_cases h0 : n / 10 = 0
      · have hn : n < 10 := by omega
        have he : e = 0 := by
          by_contra hne
          have h10 : (10:ℕ) ^ 1 ≤ 10 ^ e := Nat.pow_le_pow_right (by norm_num) (by omega)
          simp only [pow_one] at h10
          omega
        rw [hstep, if_pos h0, he]
        simp
      · rw [hstep, if_neg h0, Nat.toDigitsCore_lens_eq]
        cases e with
        | zero => omega
        | succ e' =>
            have h2' : 10 ^ e' ≤ n / 10 := by
              rw [Nat.le_div_iff_mul_le (by norm_num)]
              calc 10 ^ e' * 10 = 10 ^ (e' + 1) := (pow_succ 10 e').symm
                _ ≤ n := h2
            have h1' : n / 10 < 10 ^ f := by
              rw [Nat.div_lt_iff_lt_mul (by norm_num)]
              calc n < 10 ^ (f + 1) := h1
                _ = 10 ^ f * 10 := pow_succ 10 f
            have := ih (n / 10) e' h1' h2'
            omega

theorem repr_length_lower (n : ℕ) (h : 10 ^ 4 ≤ n) : 4 < (Nat.repr n).length := by
  have h1 : n < 10 ^ (n + 1) := by
    calc n < 10 ^ n := Nat.lt_pow_self (by norm_num) n
      _ ≤ 10 ^ (n + 1) := Nat.pow_le_pow_right (by norm_num) (Nat.le_succ n)
  have hlow := toDigitsCore_length_lower (n + 1) n 4 h1 h
  simpa [Nat.repr, Nat.toDigits, String.length, List.asString] using hlow

theorem padZeros4_no_padding (n : ℕ) (h : 9999 < n) : padZeros4 n = Nat.repr n := by
  have hlen := repr_length_lower n (by omega)
  unfold padZeros4
  rw [if_neg (by omega)]

/-- Claim C4: one allocator call computes `next = current + 1` (0 for an
absent counter), schedules the counter update to `next` in the same
transaction, and returns the GOD- prefixed identifier with `next`
zero-padded to 4 digits; the first allocation against an absent counter
returns GOD-0001 and the second GOD-0002; numbers beyond 9999 are not
padded. -/
theorem C4_allocator_format (s : Store) :
    _generate_sequential_customer_id s =
      (formatCustomerId (counterVal s + 1), { s with counter := some (counterVal s + 1) }) ∧
    formatCustomerId (counterVal s + 1) = "GOD-" ++ padZeros4 (counterVal s + 1) ∧
    (_generate_sequential_customer_id { customers := [], counter := none }).1 = "GOD-0001" ∧
    (_generate_sequential_customer_id
        (_generate_sequential_customer_id { customers := [], counter := none }).2).1 =
      "GOD-0002" ∧
    ∀ n, 9999 < n → formatCustomerId n = "GOD-" ++ Nat.repr n := by
  refine ⟨rfl, rfl, by decide, by decide, ?_⟩
  intro n hn
  unfold formatCustomerId
  rw [padZeros4_no_padding n hn]

/-! ### C6 and C7: Create semantics -/

theorem lookupCustomer_setCustomer_self (s : Store) (k : String) (d : CustomerDoc) :
    lookupCustomer (setCustomer s k d) k = some d :=
  lookupDoc_setDoc_self _ _ _

theorem lookupCustomer_setCustomer_ne (s : Store) (k k' : String) (d : CustomerDoc)
    (h : k' ≠ k) : lookupCustomer (setCustomer s k d) k' = lookupCustomer s k' :=
  lookupDoc_setDoc_ne _ _ _ _ h

theorem counter_setCustomer (s : Store) (k : String) (d : CustomerDoc) :
    (setCustomer s k d).counter = s.counter := rfl

/-- Claim C6: a successful Create writes the new document at the final
identifier with the given name, zero totals and zero balance, `customer_id`
equal to that identifier, and returns exactly the record as written; the
shared counter is incremented by the call iff no requested id was supplied
(an empty requested string cannot name a document and is excluded). -/
theorem C6_create_success_shape (s : Store) (nm : String) (rid : Option String)
    (hr : rid ≠ some "") :
    ∀ d s', create_customer s nm rid = (Except.ok d, s') →
      d.name = nm ∧ d.total_top_up = 0 ∧ d.total_spent = 0 ∧ d.balance = 0 ∧
      lookupCustomer s' d.customer_id = some d ∧
      (rid = none → s'.counter = some (counterVal s + 1)) ∧
      (rid ≠ none → s'.counter = s.counter) := by
  intro d s' h
  unfold create_customer at h
  cases rid with
  | none =>
      rw [create_generated s nm none rfl] at h
      obtain ⟨h1, h2⟩ := Prod.mk.inj h
      obtain rfl := Except.ok.inj h1
      subst h2
      refine ⟨rfl, rfl, rfl, rfl, lookupCustomer_setCustomer_self _ _ _, fun _ => rfl, ?_⟩
      intro hcon
      exact absurd rfl hcon
  | some docId =>
      have hne : docId ≠ "" := fun he => hr (he ▸ rfl)
      cases hc : lookupCustomer s docId with
      | some c =>
          rw [create_requested_exists s nm docId c hne hc] at h
          exact absurd (Prod.mk.inj h).1 (by simp)
      | none =>
          rw [create_requested_ok s nm docId hne hc] at h
          obtain ⟨h1, h2⟩ := Prod.mk.inj h
          obtain rfl := Except.ok.inj h1
          subst h2
          exact ⟨rfl, rfl, rfl, rfl, lookupCustomer_setCustomer_self _ _ _,
            (fun hcon => nomatch hcon), fun _ => rfl⟩

theorem C6_create_success_shape_witness :
    lookupCustomer (create_customer witStore "Carol" none).2 "GOD-0002" =
      some (newCustomerDoc "Carol" "GOD-0002") :=
  (C6_create_success_shape witStore "Carol" none (by simp)
    (newCustomerDoc "Carol" "GOD-0002") (create_customer witStore "Carol" none).2
    rfl).2.2.2.2.1

/-- Claim C7: Create with a non-empty caller-supplied requested id reads the
document at that id inside the transaction; when it exists the call fails
with AlreadyExists and writes nothing (store, counter untouched, no retry);
hence of two successive Creates with the same requested id the second fails
with AlreadyExists. -/
theorem C7_create_requested_conflict (s : Store) (nm nm' docId : String)
    (hne : docId ≠ "") :
    (∀ c, lookupCustomer s docId = some c →
      create_customer s nm (some docId) = (Except.error ApiError.alreadyExists, s)) ∧
    (∀ d s', create_customer s nm (some docId) = (Except.ok d, s') →
      create_customer s' nm' (some docId) = (Except.error ApiError.alreadyExists, s')) := by
  constructor
  · intro c hc
    unfold create_customer
    exact create_requested_exists s nm docId c hne hc
  · intro d s' h
    unfold create_customer at h ⊢
    cases hc : lookupCustomer s docId with
    | some c =>
        rw [create_requested_exists s nm docId c hne hc] at h
        exact absurd (Prod.mk.inj h).1 (by simp)
    | none =>
        rw [create_requested_ok s nm docId hne hc] at h
        obtain ⟨h1, h2⟩ := Prod.mk.inj h
        obtain rfl := Except.ok.inj h1
        subst h2
        exact create_requested_exists _ nm' docId _ hne
          (lookupCustomer_setCustomer_self _ _ _)

theorem C7_create_requested_conflict_witness :
    create_customer witStore "Y" (some "GOD-0001") =
      (Except.error ApiError.alreadyExists, witStore) :=
  (C7_create_requested_conflict witStore "Y" "Z" "GOD-0001" (by decide)).1
    { name := "Alice", customer_id := "GOD-0001",
      total_top_up := 100, total_spent := 40, balance := 60 } rfl

/-! ### C8: validation happens before the transaction -/

/-- Claim C8: a TopUp or Spend request with a non-positive amount is rejected
by request validation before any transaction begins: the outcome is the
validation error, the store is exactly as it was, and no store read occurs
(the outcome is the same whatever the store contents). -/
theorem C8_nonpositive_amount_rejected (s t : Store) (cid : String) (a : ℚ)
    (ha : a ≤ 0) :
    top_up_customer_balance s cid a = (Except.error ApiError.validationError, s) ∧
    spend_customer_balance s cid a = (Except.error ApiError.validationError, s) ∧
    (top_up_customer_balance s cid a).1 = (top_up_customer_balance t cid a).1 ∧
    (spend_customer_balance s cid a).1 = (spend_customer_balance t cid a).1 := by
  have hna : ¬0 < a := not_lt.2 ha
  unfold top_up_customer_balance spend_customer_balance
  simp only [if_neg hna]
  exact ⟨trivial, trivial, trivial, trivial⟩

theorem C8_nonpositive_amount_rejected_witness :
    top_up_customer_balance witStore "GOD-0001" 0 =
      (Except.error ApiError.validationError, witStore) :=
  (C8_nonpositive_amount_rejected witStore { customers := [], counter := none }
    "GOD-0001" 0 (by norm_num)).1

/-! ### C9: two conflicting TopUp transactions -/

/-- Modelled from the spec: the store-side optimistic transaction runner for
two concurrent transactions whose read sets overlap on the same customer
document (spec sections 5 and 9).  The retry-on-conflict runner behind the
`firestore.transactional` decorator is external library code, not part of
src/main.py.  Both transactions read the same snapshot `s0`; the store
commits one of them; the other's commit fails validation because its read
set is stale, and the runner re-executes its body against the winner's
committed state.  Returns both eventual results and the final state. -/
def runTwoConflicting (body1 body2 : Store → Except ApiError CustomerDoc × Store)
    (s0 : Store) : Except ApiError CustomerDoc × Except ApiError CustomerDoc × Store :=
  let out1 := body1 s0
  let out2 := body2 out1.2
  (out1.1, out2.1, out2.2)

/-- Claim C9: two concurrent TopUp(10) transactions on the same customer
starting at balance 0: one commits, the loser is re-run against the
committed state, both eventually succeed, and the final balance is exactly
20, never 10. -/
theorem C9_concurrent_topups_sum (s0 : Store) (cid : String) (c : CustomerDoc)
    (hc : lookupCustomer s0 cid = some c) (hb : c.balance = 0) :
    (∃ d1, (runTwoConflicting (fun s => top_up_customer_balance s cid 10)
        (fun s => top_up_customer_balance s cid 10) s0).1 = Except.ok d1 ∧
      d1.balance = 10) ∧
    (∃ d2, (runTwoConflicting (fun s => top_up_customer_balance s cid 10)
        (fun s => top_up_customer_balance s cid 10) s0).2.1 = Except.ok d2 ∧
      d2.balance = 20 ∧ ¬d2.balance = 10 ∧
      lookupCustomer (runTwoConflicting (fun s => top_up_customer_balance s cid 10)
        (fun s => top_up_customer_balance s cid 10) s0).2.2 cid = some d2) := by
  have h1 := topUp_ok s0 cid 10 c (by norm_num) hc
  have hc1 : lookupCustomer (setCustomer s0 cid
      { c with total_top_up := c.total_top_up + 10, balance := c.balance + 10 }) cid =
      some { c with total_top_up := c.total_top_up + 10, balance := c.balance + 10 } :=
    lookupCustomer_setCustomer_self _ _ _
  have h2 := topUp_ok _ cid 10 _ (by norm_num) hc1
  unfold runTwoConflicting
  simp only [h1, h2]
  refine ⟨⟨_, rfl, ?_⟩, ⟨_, rfl, ?_, ?_, lookupCustomer_setCustomer_self _ _ _⟩⟩
  · show c.balance + 10 = 10
    rw [hb]; norm_num
  · show c.balance + 10 + 10 = 20
    rw [hb]; norm_num
  · show ¬c.balance + 10 + 10 = 10
    rw [hb]; norm_num

/-- A customer with zero balance, for instantiating the concurrency claim. -/
def zeroStore : Store :=
  { customers := [("GOD-0001", newCustomerDoc "Zed" "GOD-0001")], counter := some 1 }

theorem C9_concurrent_topups_sum_witness :
    ∃ d2, (runTwoConflicting (fun s => top_up_customer_balance s "GOD-0001" 10)
        (fun s => top_up_customer_balance s "GOD-0001" 10) zeroStore).2.1 = Except.ok d2 ∧
      d2.balance = 20 ∧ ¬d2.balance = 10 ∧
      lookupCustomer (runTwoConflicting (fun s => top_up_customer_balance s "GOD-0001" 10)
        (fun s => top_up_customer_balance s "GOD-0001" 10) zeroStore).2.2 "GOD-0001" =
        some d2 :=
  (C9_concurrent_topups_sum zeroStore "GOD-0001" (newCustomerDoc "Zed" "GOD-0001")
    rfl rfl).2

/-! ### C10: frame of TopUp and Spend -/

/-- Claim C10: a successful TopUp writes only `total_top_up` and `balance`,
and a successful Spend writes only `total_spent` and `balance`, of the
targeted document: `customer_id` and `name` are unchanged by both, TopUp
leaves `total_spent` unchanged, Spend leaves `total_top_up` unchanged, and
every other document and the counter are untouched. -/
theorem C10_topup_spend_frame (s : Store) (cid : String) (a : ℚ) (c : CustomerDoc)
    (hc : lookupCustomer s cid = some c) (ha : 0 < a) :
    (∀ d, (top_up_customer_balance s cid a).1 = Except.ok d →
      d.name = c.name ∧ d.customer_id = c.customer_id ∧ d.total_spent = c.total_spent ∧
      lookupCustomer (top_up_customer_balance s cid a).2 cid = some d) ∧
    (∀ d, (spend_customer_balance s cid a).1 = Except.ok d →
      d.name = c.name ∧ d.customer_id = c.customer_id ∧ d.total_top_up = c.total_top_up ∧
      lookupCustomer (spend_customer_balance s cid a).2 cid = some d) ∧
    (∀ k, k ≠ cid → lookupCustomer (top_up_customer_balance s cid a).2 k =
      lookupCustomer s k) ∧
    (∀ k, k ≠ cid → lookupCustomer (spend_customer_balance s cid a).2 k =
      lookupCustomer s k) ∧
    (top_up_customer_balance s cid a).2.counter = s.counter ∧
    (spend_customer_balance s cid a).2.counter = s.counter := by
  rw [topUp_ok s cid a c ha hc]
  by_cases hlt : c.balance < a
  · rw [spend_insufficient s cid a c ha hc hlt]
    refine ⟨?_, ?_, ?_, ?_, rfl, rfl⟩
    · intro d hd
      obtain rfl := Except.ok.inj hd
      exact ⟨rfl, rfl, rfl, lookupCustomer_setCustomer_self _ _ _⟩
    · intro d hd
      exact absurd hd (by simp)
    · intro k hk
      exact lookupCustomer_setCustomer_ne _ _ _ _ hk
    · intro k hk
      rfl
  · rw [spend_ok s cid a c ha hc hlt]
    refine ⟨?_, ?_, ?_, ?_, rfl, rfl⟩
    · intro d hd
      obtain rfl := Except.ok.inj hd
      exact ⟨rfl, rfl, rfl, lookupCustomer_setCustomer_self _ _ _⟩
    · intro d hd
      obtain rfl := Except.ok.inj hd
      exact ⟨rfl, rfl, rfl, lookupCustomer_setCustomer_self _ _ _⟩
    · intro k hk
      exact lookupCustomer_setCustomer_ne _ _ _ _ hk
    · intro k hk
      exact lookupCustomer_setCustomer_ne _ _ _ _ hk

theorem C10_topup_spend_frame_witness :
    lookupCustomer (top_up_customer_balance witStore "GOD-0001" 5).2 "other" =
      lookupCustomer witStore "other" :=
  (C10_topup_spend_frame witStore "GOD-0001" 5
    { name := "Alice", customer_id := "GOD-0001",
      total_top_up := 100, total_spent := 40, balance := 60 }
    rfl (by norm_num)).2.2.1 "other" (by decide)
